import Mathlib

/-!
Verification development for the MindsetIO/weather repository.

The Python sources (weather.py, data_collector.py, weather_app.py) are
shallowly embedded below: pure helpers become Lean functions, the
stateful fetch pipeline becomes explicit state passing over a record of
the Weather object's attributes, and fallible Python code (raised
exceptions) returns Except values.  Numeric magnitudes are modelled as
exact rationals; the pint unit library is modelled as an explicit
conversion table restricted to the units the source registers and uses.
-/

namespace Weather

/-! ## Python string primitives used by the source -/

/-- Python str.lower, restricted to ASCII as used by the source. -/
def pyLower (s : String) : String := String.mk (s.data.map Char.toLower)

/-- Python str.removeprefix: drop the prefix when present, else unchanged. -/
def dropPre (pre s : String) : String :=
  if pre.data.isPrefixOf s.data then String.mk (s.data.drop pre.data.length) else s

/-- Core loop of Python str.split for a non-empty separator.  The fuel
argument (initialized to the string's length, an upper bound on the
number of loop steps) makes the recursion structural. -/
def splitCore (c0 : Char) (sep : List Char) :
    Nat → List Char → List Char → List (List Char)
  | _, acc, [] => [acc.reverse]
  | 0, acc, l => [acc.reverse ++ l]
  | fuel + 1, acc, c :: rest =>
    if (c0 :: sep).isPrefixOf (c :: rest) then
      acc.reverse :: splitCore c0 sep fuel [] (rest.drop sep.length)
    else
      splitCore c0 sep fuel (c :: acc) rest

/-- Python str.split(sep) for a non-empty separator string. -/
def pySplit (sep s : String) : List String :=
  match sep.data with
  | [] => [s]
  | c0 :: srest => (splitCore c0 srest s.data.length [] s.data).map String.mk

/-- Python str.replace(old, new) (all occurrences, non-empty old). -/
def pyReplace (s old new : String) : String :=
  String.mk (List.intercalate new.data ((pySplit old s).map String.data))

/-- Whether pat occurs as a substring of s (pat non-empty). -/
def strContains (s pat : String) : Bool := (pySplit pat s).length != 1

/-! ## The unit registry of the source (UNIT_MAP / UNIT_NTS) -/

/-- namedtuple("unit", "base SI US") from the source. -/
structure UnitNT where
  base : String
  SI : String
  US : String
deriving DecidableEq

/-- UNIT_MAP from weather.py: source unit code to (base, SI, US) names. -/
def UNIT_MAP : List (String × UnitNT) :=
  [ ("degC", ⟨"degree_Celsius", "degree_Celsius", "degree_Fahrenheit"⟩),
    ("km_h-1", ⟨"kilometer_per_hour", "km / hour", "miles / hour"⟩),
    ("kilometer / hour", ⟨"kilometer_per_hour", "km / hour", "miles / hour"⟩),
    ("m", ⟨"meter", "km", "miles"⟩),
    ("Pa", ⟨"pascal", "mbar", "inHg"⟩),
    ("percent", ⟨"percent", "percent", "percent"⟩),
    ("degree_(angle)", ⟨"degree", "degree", "degree"⟩) ]

/-- Dictionary lookup UNIT_NTS[k], as an Option. -/
def unitLookup (k : String) : Option UnitNT :=
  (UNIT_MAP.find? (fun kv => kv.1 = k)).map (fun kv => kv.2)

/-- The two values of self.units in the source: the strings "SI" and "US". -/
inductive UnitSystem where
  | SI
  | US
deriving DecidableEq

/-- The string the source stores in self.units. -/
def unitsStr : UnitSystem → String
  | .SI => "SI"
  | .US => "US"

/-- getattr(unit, self.units): select the display-unit name for the system. -/
def unitTarget (u : UnitNT) : UnitSystem → String
  | .SI => u.SI
  | .US => u.US

/-- self.units = ["SI", "US"][(units or "us").lower() in ["f", "us"]] -/
def selectUnits (units : Option String) : UnitSystem :=
  let u := match units with
    | Option.none => "us"
    | Option.some s => if s = "" then "us" else s
  if pyLower u = "f" ∨ pyLower u = "us" then .US else .SI

/-! ## Model of the pint unit conversions reachable from the registry

The source builds quantities only from the base names in UNIT_MAP (and
from the parsed forecast wind-speed text, whose pint units render as
"kilometer / hour") and converts them only to the SI/US display names in
UNIT_MAP.  pint's dimensional analysis on that closed set of units is
modelled by an explicit factor table (factor = how many SI base units one
such unit is), with the Celsius/Fahrenheit pair converted affinely, as
pint does for temperature units. -/

/-- Dimension tag and size in SI base units for each reachable unit name. -/
def unitFactor : String → Option (String × ℚ)
  | "kilometer_per_hour" => some ("speed", 1000 / 3600)
  | "km / hour" => some ("speed", 1000 / 3600)
  | "kilometer / hour" => some ("speed", 1000 / 3600)
  | "miles / hour" => some ("speed", (1609344 / 1000) / 3600)
  | "meter" => some ("length", 1)
  | "km" => some ("length", 1000)
  | "miles" => some ("length", 1609344 / 1000)
  | "pascal" => some ("pressure", 1)
  | "mbar" => some ("pressure", 100)
  | "inHg" => some ("pressure", (254 * 135951 * 980665 : ℚ) / 10000000000)
  | "percent" => some ("ratio", 1)
  | "degree" => some ("angle", 1)
  | "degree_Celsius" => some ("temperature", 1)
  | "degree_Fahrenheit" => some ("temperature", 1)
  | _ => Option.none

/-- quant.to(target): pint conversion between two reachable unit names. -/
def pintConvert (src tgt : String) (v : ℚ) : Option ℚ :=
  if src = tgt then some v
  else if src = "degree_Celsius" ∧ tgt = "degree_Fahrenheit" then
    some (v * 9 / 5 + 32)
  else if src = "degree_Fahrenheit" ∧ tgt = "degree_Celsius" then
    some ((v - 32) * 5 / 9)
  else
    match unitFactor src, unitFactor tgt with
    | some (d1, f1), some (d2, f2) =>
      if d1 = d2 ∧ d1 ≠ "temperature" then some (v * f1 / f2) else Option.none
    | _, _ => Option.none

/-- A pint Quantity: exact rational magnitude tagged with its unit name. -/
structure Quantity where
  magnitude : ℚ
  units : String
deriving DecidableEq

/-! ## Python exceptions raised by the embedded code -/

/-- The exceptions the embedded code can raise. -/
inductive PyErr where
  | exc (msg : String)
  | keyError (k : String)
  | attrError (k : String)
  | indexError
  | typeError
  | dimensionalityError
deriving DecidableEq

/-! ## JSON values (decoded response payloads) -/

/-- A decoded JSON value as the Python code receives it from resp.json(). -/
inductive JVal where
  | null
  | bool (b : Bool)
  | num (q : ℚ)
  | str (s : String)
  | arr (items : List JVal)
  | obj (fields : List (String × JVal))

/-- Dictionary field access d[k] on a JSON object (Python KeyError/TypeError). -/
def JVal.item (j : JVal) (k : String) : Except PyErr JVal :=
  match j with
  | .obj fs =>
    match fs.find? (fun kv => kv.1 = k) with
    | some kv => .ok kv.2
    | Option.none => .error (.keyError k)
  | _ => .error .typeError

/-- List index access l[i] (Python IndexError/TypeError). -/
def JVal.index (j : JVal) (i : Nat) : Except PyErr JVal :=
  match j with
  | .arr xs =>
    match xs.get? i with
    | some x => .ok x
    | Option.none => .error .indexError
  | _ => .error .typeError

/-- Coerce a JSON value where the code needs a Python str. -/
def JVal.asStr (j : JVal) : Except PyErr String :=
  match j with
  | .str s => .ok s
  | _ => .error .typeError

/-- Whether the value is a Python dict (isinstance(v, dict)). -/
def JVal.isObj (j : JVal) : Bool :=
  match j with
  | .obj _ => true
  | _ => false

/-- f-string rendering of a payload value; the routes the source formats
here are strings in practice, composite rendering is not modelled. -/
def JVal.fstr (j : JVal) : String :=
  match j with
  | .str s => s
  | .num q => toString q
  | .bool true => "True"
  | .bool false => "False"
  | .null => "None"
  | .arr _ => ""
  | .obj _ => ""

/-- dict_to_nt from the source: take the "properties" sub-dict when
present, else the dict itself, and strip a leading "@" from each key.
(The namedtuple construction keeps the dict's keys and values.) -/
def dict_to_nt (j : JVal) : JVal :=
  let inner :=
    match j.item "properties" with
    | .ok p => p
    | .error _ => j
  match inner with
  | .obj fs => .obj (fs.map (fun kv => (dropPre "@" kv.1, kv.2)))
  | other => other

/-- Attribute access nt.k on a dict_to_nt record (AttributeError). -/
def JVal.attr (j : JVal) (k : String) : Except PyErr JVal :=
  match j with
  | .obj fs =>
    match fs.find? (fun kv => kv.1 = k) with
    | some kv => .ok kv.2
    | Option.none => .error (.attrError k)
  | _ => .error (.attrError k)

/-! ## The unit conversion entry point (Weather._to_units) -/

/-- Weather._to_units on a unit-tagged payload dict v:
if v["value"] is None it is returned unchanged (no unit lookup happens);
otherwise the unit code, stripped of the "unit:" namespace, is looked up
in UNIT_NTS (KeyError when absent), a pint quantity is built from the
base unit name, and converted to the display unit the selected system
names.  The result is none for the Python None, some quantity otherwise. -/
def jto_units (units : UnitSystem) (v : JVal) : Except PyErr (Option Quantity) :=
  match v.item "value" with
  | .error e => .error e
  | .ok .null => .ok Option.none
  | .ok (.num val) =>
    match v.item "unitCode" with
    | .error e => .error e
    | .ok codeJ =>
      match codeJ.asStr with
      | .error e => .error e
      | .ok code =>
        match unitLookup (dropPre "unit:" code) with
        | Option.none => .error (.keyError (dropPre "unit:" code))
        | some unit =>
          match pintConvert unit.base (unitTarget unit units) val with
          | some m => .ok (some ⟨m, unitTarget unit units⟩)
          | Option.none => .error .dimensionalityError
  | .ok _ => .error .typeError

/-! ## Processed Python values (the obs dictionaries the processors build) -/

/-- A value in a processed observation dict: a converted pint Quantity, a
string the code built itself (localized timestamps, the immediate
summary), a bare magnitude produced by _serialize, a value copied
verbatim from the payload, or a nested list/dict the code assembles. -/
inductive PVal where
  | quant (q : Quantity)
  | str (s : String)
  | num (q : ℚ)
  | raw (j : JVal)
  | list (xs : List PVal)
  | dict (fs : List (String × PVal))

/-- The Python None as it appears in processed dicts (a copied JSON null
or the None returned by _to_units are the same Python object). -/
def pyNone : PVal := .raw .null

/-- Python v is None on a processed value. -/
def PVal.isNone : PVal → Bool
  | .raw .null => true
  | _ => false

/-- Python isinstance(v, pint.Quantity) on a processed value. -/
def PVal.isQuant : PVal → Bool
  | .quant _ => true
  | _ => false

/-- Embed the _to_units result into a processed dict entry. -/
def pvalOfQuantOpt : Option Quantity → PVal
  | Option.none => pyNone
  | some q => .quant q

/-- A payload value copied through into a processed dict unchanged. -/
def pvalOfJVal (j : JVal) : PVal := .raw j

/-- Python dict assignment d[k] = v on an ordered dict: replace in place
when the key exists, append otherwise. -/
def assocSet (l : List (String × PVal)) (k : String) (v : PVal) :
    List (String × PVal) :=
  if l.any (fun kv => kv.1 = k) then
    l.map (fun kv => if kv.1 = k then (k, v) else kv)
  else
    l ++ [(k, v)]

/-! ## Weather._serialize (weather.py) -/

/-- The value transformation of Weather._serialize: a pint Quantity
becomes its bare magnitude, everything else is copied unchanged. -/
def serializeVal : PVal → PVal
  | .quant q => .num q.magnitude
  | v => v

/-- Weather._serialize: drop the "elevation" and "cloud_layers" keys and
every None value, replace each pint Quantity by its bare magnitude, copy
everything else through unchanged, preserving order. -/
def _serialize (data : List (String × PVal)) : List (String × PVal) :=
  data.filterMap (fun kv =>
    if kv.1 = "elevation" ∨ kv.1 = "cloud_layers" ∨ kv.2.isNone then
      Option.none
    else
      some (kv.1, serializeVal kv.2))

/-- Dictionary lookup on a processed dict, keyed on the first match. -/
def lookupKey (l : List (String × PVal)) (k : String) : Option PVal :=
  (l.find? (fun kv => kv.1 = k)).map (fun kv => kv.2)

/-! ## Weather._process_current (weather.py) -/

/-- Weather._process_current: convert every dict-valued field of the raw
observation payload through _to_units, copy textDescription and
rawMessage through, localize the timestamp, convert each cloud layer's
base height, and attach the serialized mapping under "data".  The
localize parameter models datetime.fromisoformat(...).astimezone(tz). -/
def _process_current (units : UnitSystem) (localize : String → String)
    (data : JVal) : Except PyErr (List (String × PVal)) := do
  match data with
  | .obj fs => do
    let conv ← (fs.filter (fun kv => kv.2.isObj)).mapM
      (fun kv => do
        let q ← jto_units units kv.2
        return (kv.1, pvalOfQuantOpt q))
    let desc ← data.item "textDescription"
    let ts ← data.item "timestamp"
    let tsS ← ts.asStr
    let raw ← data.item "rawMessage"
    let clsJ ← data.item "cloudLayers"
    match clsJ with
    | .arr cs => do
      let cls ← cs.mapM (fun c => do
        let b ← c.item "base"
        let bq ← jto_units units b
        let amt ← c.item "amount"
        return PVal.dict [("base", pvalOfQuantOpt bq),
                          ("amount", pvalOfJVal amt)])
      let obs := conv
      let obs := assocSet obs "desc" (pvalOfJVal desc)
      let obs := assocSet obs "timestamp" (.str (localize tsS))
      let obs := assocSet obs "raw_message" (pvalOfJVal raw)
      let obs := assocSet obs "cloud_layers" (.list cls)
      return assocSet obs "data" (.dict (_serialize obs))
    | _ => .error .typeError
  | _ => .error .typeError

/-! ## Model of pint text-expression parsing (forecast wind speed)

The source parses the forecast windSpeed text with
UREG.Quantity(text.replace("/h", "/hour")).  The service (queried with
units=si) reports wind speeds as "N km/h", so after the replace the text
is "N km/hour"; pint parses it into magnitude N with units rendering as
"kilometer / hour".  The model covers exactly that shape and raises on
anything else, as pint would raise on undefined units. -/

/-- Parse a digit string into a natural number. -/
def parseNatDigits : List Char → Option Nat
  | [] => Option.none
  | cs =>
    if cs.all Char.isDigit then
      some (cs.foldl (fun acc c => acc * 10 + (c.toNat - 48)) 0)
    else
      Option.none

/-- Parse a decimal numeral (digits with an optional fractional part). -/
def parseRat (s : String) : Option ℚ :=
  match pySplit "." s with
  | [i] => (parseNatDigits i.data).map (fun n => (n : ℚ))
  | [i, f] => do
    let a ← parseNatDigits i.data
    let b ← parseNatDigits f.data
    return (a : ℚ) + (b : ℚ) / ((10 : ℚ) ^ f.data.length)
  | _ => Option.none

/-- The pint unit names the parsed wind-speed expressions resolve to. -/
def canonUnit : String → Option String
  | "km/hour" => some "kilometer / hour"
  | _ => Option.none

/-- UREG.Quantity(text): parse a unit-bearing text expression. -/
def parse_quantity (s : String) : Except PyErr Quantity :=
  match pySplit " " s with
  | [n, u] =>
    match parseRat n, canonUnit u with
    | some q, some cu => .ok ⟨q, cu⟩
    | _, _ => .error (.exc "undefined unit")
  | _ => .error (.exc "cannot parse")

/-! ## Weather._process_forecast (weather.py) -/

/-- The inner _period of Weather._process_forecast: parse and convert the
wind-speed text, convert the Celsius temperature, localize the period
bounds, and copy the remaining fields through. -/
def _period (units : UnitSystem) (localize : String → String) (per : JVal) :
    Except PyErr (List (String × PVal)) := do
  let wsJ ← per.item "windSpeed"
  let wsText ← wsJ.asStr
  let ws ← parse_quantity (pyReplace wsText "/h" "/hour")
  let unit ←
    match unitLookup ws.units with
    | some u => Except.ok u
    | Option.none => Except.error (PyErr.keyError ws.units)
  let wsTgt := unitTarget unit units
  let wsMag ←
    match pintConvert ws.units wsTgt ws.magnitude with
    | some m => Except.ok m
    | Option.none => Except.error PyErr.dimensionalityError
  let tJ ← per.item "temperature"
  let tempN ←
    match tJ with
    | .num q => Except.ok q
    | _ => Except.error PyErr.typeError
  let tTgt := unitTarget ⟨"degree_Celsius", "degree_Celsius", "degree_Fahrenheit"⟩ units
  let tempMag ←
    match pintConvert "degree_Celsius" tTgt tempN with
    | some m => Except.ok m
    | Option.none => Except.error PyErr.dimensionalityError
  let stT ← per.item "startTime"
  let stS ← stT.asStr
  let enT ← per.item "endTime"
  let enS ← enT.asStr
  let dayt ← per.item "isDaytime"
  let desc ← per.item "shortForecast"
  let wdir ← per.item "windDirection"
  return [("start_time", .str (localize stS)),
          ("end_time", .str (localize enS)),
          ("is_daytime", pvalOfJVal dayt),
          ("desc", pvalOfJVal desc),
          ("temperature", .quant ⟨tempMag, tTgt⟩),
          ("wind_direction", pvalOfJVal wdir),
          ("wind_speed", .quant ⟨wsMag, wsTgt⟩)]

/-- Weather._process_forecast: convert the elevation, localize the
generation instants, and process each period in order. -/
def _process_forecast (units : UnitSystem) (localize : String → String)
    (data : JVal) : Except PyErr (List (String × PVal)) := do
  let elevJ ← data.item "elevation"
  let elev ← jto_units units elevJ
  let genJ ← data.item "generatedAt"
  let gen ← genJ.asStr
  let updJ ← data.item "updateTime"
  let upd ← updJ.asStr
  let perJ ← data.item "periods"
  match perJ with
  | .arr ps => do
    let periods ← ps.mapM (fun p => do
      let pd ← _period units localize p
      return PVal.dict pd)
    return [("elevation", pvalOfQuantOpt elev),
            ("generated_at", .str (localize gen)),
            ("updated_at", .str (localize upd)),
            ("periods", .list periods)]
  | _ => .error .typeError

/-! ## The gateway call (Weather.wtr_get) -/

/-- An HTTP response: status code and decoded JSON body. -/
structure Response where
  status_code : Nat
  body : JVal

/-- The remote service: a response for each (normalized route, params)
pair.  requests.get is modelled as a pure function of the request. -/
def Net : Type := String → List (String × String) → Response

def WEATHER_BASE_URL : String := "https://api.weather.gov"

/-- Route normalization performed at the top of wtr_get. -/
def normRoute (route : String) : String :=
  dropPre "/" (dropPre WEATHER_BASE_URL route)

/-- Weather.wtr_get: normalize the route, perform the request, and on a
200 status return the body (or the sub-object under key); any other
status raises Exception("weather api fetch error"). -/
def wtr_get (net : Net) (route : String) (params : List (String × String))
    (key : Option String) : Except PyErr JVal :=
  if (net (normRoute route) params).status_code = 200 then
    match key with
    | Option.none => .ok (net (normRoute route) params).body
    | some k => (net (normRoute route) params).body.item k
  else
    .error (.exc "weather api fetch error")

/-! ## The Weather object state (weather.py __init__ attributes) -/

/-- The location record the external resolver returns (the fields the
source reads from the first matching record). -/
structure Area where
  zip_code : String
  city : String
  lat : String
  long : String
  timezone : String

/-- The mutable attributes of a Weather instance that the fetch pipeline
reads and writes. -/
structure WeatherState where
  area : Area
  units : UnitSystem
  meta : Option JVal
  current : Option (List (String × PVal))
  station : Option JVal
  forecast : Option (List (String × PVal))
  suntime : Option (String × String)

/-- Weather.__init__: store the area, select the unit system, and leave
every fetched attribute at None. -/
def initWeather (area : Area) (units : Option String) : WeatherState :=
  { area := area, units := selectUnits units,
    meta := Option.none, current := Option.none, station := Option.none,
    forecast := Option.none, suntime := Option.none }

/-- Lift a fallible step into the fetch computation: a raised exception
carries the object state as mutated so far (Python mutations are not
rolled back by an exception). -/
def withSt (st : WeatherState) (x : Except PyErr α) :
    Except (PyErr × WeatherState) α :=
  match x with
  | .ok a => .ok a
  | .error e => .error (e, st)

/-- Weather.fetch_weather (weather.py): the strictly sequential gateway
chain — points metadata, hourly forecast, daily forecast (first period
only), station list, latest observation — assigning self.meta,
self.forecast, self.station and self.current in source order.  The
result is the final state, or the raised exception paired with the state
at the moment of the raise. -/
def fetch_weather (localize : String → String) (net : Net)
    (st : WeatherState) : Except (PyErr × WeatherState) WeatherState := do
  let route := "/points/" ++ st.area.lat ++ "," ++ st.area.long
  let resp ← withSt st (wtr_get net route [] (some "properties"))
  let meta := dict_to_nt resp
  let st1 : WeatherState := { st with meta := some meta }
  let fhJ ← withSt st1 (meta.attr "forecastHourly")
  let fh ← withSt st1 fhJ.asStr
  let hourly ← withSt st1 (wtr_get net fh [("units", "si")] (some "properties"))
  let fdJ ← withSt st1 (meta.attr "forecast")
  let fd ← withSt st1 fdJ.asStr
  let daily ← withSt st1
    (wtr_get net fd [("units", pyLower (unitsStr st.units))] (some "properties"))
  let perLst ← withSt st1 (daily.item "periods")
  let imd ← withSt st1 (perLst.index 0)
  let nm ← withSt st1 (imd.item "name")
  let df ← withSt st1 (imd.item "detailedForecast")
  let fdata ← withSt st1 (_process_forecast st.units localize hourly)
  let st2 : WeatherState := { st1 with
    forecast := some (assocSet fdata "immediate"
      (.str (nm.fstr ++ ": " ++ df.fstr))) }
  let osJ ← withSt st2 (meta.attr "observationStations")
  let os ← withSt st2 osJ.asStr
  let feats ← withSt st2 (wtr_get net os [] (some "features"))
  let feat ← withSt st2 (feats.index 0)
  let station := dict_to_nt feat
  let st3 : WeatherState := { st2 with station := some station }
  let sidJ ← withSt st3 (station.attr "id")
  let sid ← withSt st3 sidJ.asStr
  let latest ← withSt st3
    (wtr_get net (sid ++ "/observations/latest") [] (some "properties"))
  let cur ← withSt st3 (_process_current st.units localize latest)
  return { st3 with current := some cur }

/-! ## Location resolution and the public entry point -/

/-- Weather.area_info: zipcodes.matching(str(zipcode))[0] — the external
resolver's match list is indexed at 0, raising IndexError when the
postal code resolves to zero matching records. -/
def area_info (matching : String → List Area) (zipcode : String) :
    Except PyErr Area :=
  match matching zipcode with
  | [] => .error .indexError
  | a :: _ => .ok a

/-- Weather.calc_suntime: the external suntime collaborator computes the
localized sunrise/sunset pair from the coordinates. -/
def calc_suntime (sun : String → String → String × String)
    (st : WeatherState) : WeatherState :=
  { st with suntime := some (sun st.area.lat st.area.long) }

/-- Weather.from_zipcode: resolve the area, construct the instance,
fetch the weather, compute suntimes, and return the instance; a raised
exception propagates and no instance is returned. -/
def from_zipcode (matching : String → List Area)
    (localize : String → String) (sun : String → String → String × String)
    (net : Net) (zipcode : String) (units : Option String) :
    Except PyErr WeatherState :=
  match area_info matching zipcode with
  | .error e => .error e
  | .ok area =>
    match fetch_weather localize net (initWeather area units) with
    | .error (e, _) => .error e
    | .ok obj => .ok (calc_suntime sun obj)

/-! ## Result projections used by the theorems -/

/-- The raised exception of a fetch result, when it failed. -/
def errPart (r : Except (PyErr × WeatherState) WeatherState) : Option PyErr :=
  match r with
  | .error (e, _) => some e
  | .ok _ => Option.none

/-- The self.current attribute after the fetch (raised or not). -/
def curOf (r : Except (PyErr × WeatherState) WeatherState) :
    Option (List (String × PVal)) :=
  match r with
  | .error (_, st) => st.current
  | .ok st => st.current

/-- The self.meta attribute after the fetch (raised or not). -/
def metaOf (r : Except (PyErr × WeatherState) WeatherState) : Option JVal :=
  match r with
  | .error (_, st) => st.meta
  | .ok st => st.meta

/-- The self.forecast attribute after the fetch (raised or not). -/
def forecastOf (r : Except (PyErr × WeatherState) WeatherState) :
    Option (List (String × PVal)) :=
  match r with
  | .error (_, st) => st.forecast
  | .ok st => st.forecast

/-- The self.station attribute after the fetch (raised or not). -/
def stationOf (r : Except (PyErr × WeatherState) WeatherState) : Option JVal :=
  match r with
  | .error (_, st) => st.station
  | .ok st => st.station

/-! ## Mock fixtures for the concrete gateway scenarios -/

/-- A resolver record for the spec's example postal code. -/
def testArea : Area :=
  { zip_code := "95134", city := "San Jose", lat := "37.33",
    long := "-121.89", timezone := "America/Los_Angeles" }

/-- A fresh Weather object for the given selector (meta/current/station/
forecast all None, as __init__ leaves them). -/
def initTest (units : Option String) : WeatherState := initWeather testArea units

/-- The five normalized routes of the gateway chain for testArea. -/
def pointsRoute : String := "points/37.33,-121.89"
def hourlyRoute : String := "gridpoints/MTR/99,82/forecast/hourly"
def dailyRoute : String := "gridpoints/MTR/99,82/forecast"
def stationsRoute : String := "points/37.33,-121.89/stations"
def latestRoute : String := "stations/KSJC/observations/latest"

def chainRoutes : List String :=
  [pointsRoute, hourlyRoute, dailyRoute, stationsRoute, latestRoute]

/-- Body of the points metadata response. -/
def pointsBody : JVal :=
  .obj [("properties", .obj
    [("forecastHourly", .str "https://api.weather.gov/gridpoints/MTR/99,82/forecast/hourly"),
     ("forecast", .str "https://api.weather.gov/gridpoints/MTR/99,82/forecast"),
     ("observationStations", .str "https://api.weather.gov/points/37.33,-121.89/stations")])]

/-- One mocked hourly forecast period. -/
def mockPeriod : JVal :=
  .obj [("startTime", .str "2026-10-12T10:00:00-07:00"),
        ("endTime", .str "2026-10-12T11:00:00-07:00"),
        ("isDaytime", .bool true),
        ("shortForecast", .str "Sunny"),
        ("temperature", .num 22),
        ("windDirection", .str "NW"),
        ("windSpeed", .str "13 km/h")]

/-- Body of the hourly forecast response. -/
def hourlyBody : JVal :=
  .obj [("properties", .obj
    [("elevation", .obj [("value", .num 5), ("unitCode", .str "unit:m")]),
     ("generatedAt", .str "2026-10-12T17:00:00+00:00"),
     ("updateTime", .str "2026-10-12T16:30:00+00:00"),
     ("periods", .arr [mockPeriod])])]

/-- Body of the daily forecast response. -/
def dailyBody : JVal :=
  .obj [("properties", .obj
    [("periods", .arr [.obj
      [("name", .str "Today"),
       ("detailedForecast", .str "Sunny, with a high near 24.")]])])]

/-- Body of the observation-stations response. -/
def stationsBody : JVal :=
  .obj [("features", .arr [.obj
    [("properties", .obj
      [("@id", .str "https://api.weather.gov/stations/KSJC"),
       ("name", .str "San Jose International Airport")])]])]

/-- Raw current-observation fields shared by the observation bodies. -/
def obsFields : List (String × JVal) :=
  [("textDescription", .str "Sunny"),
   ("timestamp", .str "2026-10-12T09:53:00+00:00"),
   ("rawMessage", .str "KSJC 120953Z 00000KT 10SM CLR 22/10 A3012"),
   ("temperature", .obj [("value", .num 22), ("unitCode", .str "unit:degC")]),
   ("relativeHumidity", .obj [("value", .num 40), ("unitCode", .str "unit:percent")]),
   ("visibility", .obj [("value", .null), ("unitCode", .str "unit:m")]),
   ("elevation", .obj [("value", .num 5), ("unitCode", .str "unit:m")]),
   ("cloudLayers", .arr [])]

/-- Body of the latest-observation response. -/
def obsBody : JVal := .obj [("properties", .obj obsFields)]

/-- Latest-observation body with one field carrying an unknown unit code. -/
def obsBodyBadUnit : JVal :=
  .obj [("properties", .obj (obsFields ++
    [("seaLevelPressure", .obj
      [("value", .num 1), ("unitCode", .str "unit:bogus")])]))]

/-- A mocked service answering every route of the chain with status 200. -/
def mockNet : Net := fun route _params =>
  if route = pointsRoute then ⟨200, pointsBody⟩
  else if route = hourlyRoute then ⟨200, hourlyBody⟩
  else if route = dailyRoute then ⟨200, dailyBody⟩
  else if route = stationsRoute then ⟨200, stationsBody⟩
  else if route = latestRoute then ⟨200, obsBody⟩
  else ⟨404, .null⟩

/-- mockNet with one designated route answering 404. -/
def failNet (bad : String) : Net := fun route params =>
  if route = bad then ⟨404, .null⟩ else mockNet route params

/-- mockNet with the latest observation carrying an unknown unit code. -/
def mockNetBadUnit : Net := fun route params =>
  if route = latestRoute then ⟨200, obsBodyBadUnit⟩ else mockNet route params

/-- A service that answers 404 on every request. -/
def constNet404 : Net := fun _ _ => ⟨404, .null⟩

/-! # Claim theorems -/

/-- C3: for every call of the unit conversion with a null measured
value, the result is the Python None (the NoData marker) for any unit
code — recognized or not, of any JSON type, or even absent — and any
target unit system; the value is never coerced to a number and the
unit-code lookup is never reached. -/
theorem C3_null_yields_nodata (units : UnitSystem) (v : JVal)
    (h : v.item "value" = .ok .null) :
    jto_units units v = .ok Option.none := by
  unfold jto_units
  rw [h]

/-- Witness for C3 at a concrete input whose unit code is not in the
registry (showing the lookup is not reached). -/
theorem C3_null_yields_nodata_witness :
    jto_units .US (.obj [("value", .null), ("unitCode", .str "unit:bogus")])
      = .ok Option.none :=
  C3_null_yields_nodata .US
    (.obj [("value", .null), ("unitCode", .str "unit:bogus")]) rfl

/-- The mocked current temperature observation of the spec scenario:
source value 22.0 with the service's Celsius unit code. -/
def tempObsC : JVal :=
  .obj [("value", .num 22), ("unitCode", .str "unit:degC")]

/-- C6: converting a 22.0 degree-Celsius observation yields 22.0 °C
under METRIC and 71.6 °F under IMPERIAL, by the affine conversion
22×9/5+32 and not by a ratio conversion (22×9/5 is not 71.6). -/
theorem C6_celsius_affine :
    jto_units .SI tempObsC = .ok (some ⟨22, "degree_Celsius"⟩)
    ∧ jto_units .US tempObsC = .ok (some ⟨22 * 9 / 5 + 32, "degree_Fahrenheit"⟩)
    ∧ (22 * 9 / 5 + 32 : ℚ) = 71.6
    ∧ (22 * 9 / 5 : ℚ) ≠ 71.6 := by
  refine ⟨rfl, rfl, by norm_num, by norm_num⟩

/-- The (value, unit-code) input shape for the same wind speed the
forecast text expression "13 km/h" carries. -/
def windPairC : JVal :=
  .obj [("value", .num 13), ("unitCode", .str "unit:km_h-1")]

/-- The wind-speed Quantity the pipeline produces for "13 km/h" under
the imperial system: 13 km/h converted to miles per hour. -/
def windQuantityUS : Quantity :=
  ⟨13 * (1000 / 3600) / (1609344 / 1000 / 3600), "miles / hour"⟩

/-- C7: the forecast wind-speed text "13 km/h" (after the source's
"/h" to "/hour" rewrite) parses to magnitude 13 in kilometer / hour;
under the IMPERIAL system the processed forecast period carries the
converted Quantity windQuantityUS, whose magnitude is exactly
203125/25146 miles/hour and within 0.01 of 8.08; and the
(value, unit-code) input shape resolves to the identical Quantity. -/
theorem C7_wind_text_conversion :
    parse_quantity (pyReplace "13 km/h" "/h" "/hour")
      = .ok ⟨13, "kilometer / hour"⟩
    ∧ (match _period .US id mockPeriod with
       | .ok pd => lookupKey pd "wind_speed"
       | .error _ => Option.none)
        = some (.quant windQuantityUS)
    ∧ jto_units .US windPairC = .ok (some windQuantityUS)
    ∧ windQuantityUS.magnitude = 203125 / 25146
    ∧ |windQuantityUS.magnitude - 808 / 100| < 1 / 100 := by
  refine ⟨rfl, rfl, rfl, by norm_num [windQuantityUS], ?_⟩
  have h : windQuantityUS.magnitude - 808 / 100 = -(1367 / 628650) := by
    norm_num [windQuantityUS]
  rw [h, abs_neg, abs_of_pos (by norm_num)]
  norm_num

/-- C8: a percent-valued measured field converts to the same magnitude
(and the same percent unit) under the METRIC and the IMPERIAL systems:
percent is a dimensionless pass-through, never numerically converted. -/
theorem C8_percent_passthrough (val : ℚ) :
    jto_units .SI (.obj [("value", .num val), ("unitCode", .str "unit:percent")])
      = .ok (some ⟨val, "percent"⟩)
    ∧ jto_units .US (.obj [("value", .num val), ("unitCode", .str "unit:percent")])
      = .ok (some ⟨val, "percent"⟩) :=
  ⟨rfl, rfl⟩

/-- C5 counterexample: an absent (None) selector yields the imperial
system, not the metric system the claim states. -/
theorem C5_counterexample :
    selectUnits Option.none = UnitSystem.US
    ∧ UnitSystem.US ≠ UnitSystem.SI :=
  ⟨rfl, by decide⟩

/-- C5 amended: selection is case-insensitive — a selector whose
lowercase form is "f" or "us" yields the imperial system; every other
non-empty selector yields the metric system; but an absent (None) or
empty selector is replaced by "us" and therefore also yields the
imperial system, not the metric one. -/
theorem C5_selector_amended (s : String) :
    (selectUnits (some s) = UnitSystem.US
      ↔ (pyLower s = "f" ∨ pyLower s = "us" ∨ s = ""))
    ∧ selectUnits Option.none = UnitSystem.US := by
  refine ⟨?_, rfl⟩
  by_cases hs : s = ""
  · subst hs
    decide
  · show (if pyLower (if s = "" then "us" else s) = "f"
            ∨ pyLower (if s = "" then "us" else s) = "us"
          then UnitSystem.US else UnitSystem.SI) = UnitSystem.US ↔ _
    rw [if_neg hs]
    split_ifs with h
    · constructor
      · intro _
        rcases h with h | h
        · exact Or.inl h
        · exact Or.inr (Or.inl h)
      · intro _
        rfl
    · constructor
      · intro hc
        exact absurd hc (by decide)
      · intro hc
        rcases hc with hc | hc | hc
        · exact absurd (Or.inl hc) h
        · exact absurd (Or.inr hc) h
        · exact absurd hc hs

/-- C9: when the postal code resolves to zero matching records,
constructing a snapshot fails with the resolver error (Python's
IndexError from indexing the empty match list — the failure §7 names
LocationNotFoundError), the result is the same for every network (so no
remote weather call is observable), and no snapshot is produced. -/
theorem C9_zero_matches (matching : String → List Area) (z : String)
    (u : Option String) (h : matching z = []) :
    ∀ (localize : String → String) (sun : String → String → String × String)
      (net : Net),
      from_zipcode matching localize sun net z u = .error PyErr.indexError := by
  intro localize sun net
  unfold from_zipcode area_info
  rw [h]

/-- Witness for C9 at a concrete empty resolver. -/
theorem C9_zero_matches_witness :
    from_zipcode (fun _ => []) id (fun _ _ => ("", "")) constNet404 "00000"
      (some "F") = .error PyErr.indexError :=
  C9_zero_matches (fun _ => []) "00000" (some "F") rfl id
    (fun _ _ => ("", "")) constNet404

/-- C1 counterexample: with the points request answering non-success,
the fetch raises the gateway error, but its message is the constant
"weather api fetch error", which does not name (contain) the failing
route — refuting the claim that the raised error includes the route. -/
theorem C1_counterexample :
    errPart (fetch_weather id (failNet pointsRoute) (initTest (some "F")))
      = some (.exc "weather api fetch error")
    ∧ strContains "weather api fetch error" pointsRoute = false :=
  ⟨rfl, rfl⟩

/-- C1 amended: a non-success status at any step of the gateway chain
makes wtr_get raise the fixed Exception("weather api fetch error") — so
the whole fetch fails and no current snapshot is produced (current
stays None at all five failing steps of the mocked chain) — but the
raised error carries only that constant message, without the failing
step's route. -/
theorem C1_gateway_failure_amended :
    (∀ (net : Net) (route : String) (params : List (String × String))
       (key : Option String),
       (net (normRoute route) params).status_code ≠ 200 →
       wtr_get net route params key = .error (.exc "weather api fetch error"))
    ∧ ∀ r ∈ chainRoutes,
        errPart (fetch_weather id (failNet r) (initTest (some "F")))
          = some (.exc "weather api fetch error")
        ∧ curOf (fetch_weather id (failNet r) (initTest (some "F")))
          = Option.none := by
  constructor
  · intro net route params key h
    unfold wtr_get
    rw [if_neg h]
  · intro r hr
    fin_cases hr <;> exact ⟨rfl, rfl⟩

/-- Witness for C1's amended theorem at concrete inputs. -/
theorem C1_gateway_failure_witness :
    wtr_get constNet404 "points/0,0" [] (some "properties")
      = .error (.exc "weather api fetch error")
    ∧ errPart (fetch_weather id (failNet hourlyRoute) (initTest (some "F")))
      = some (.exc "weather api fetch error") :=
  ⟨C1_gateway_failure_amended.1 constNet404 "points/0,0" [] (some "properties")
    (by decide),
   (C1_gateway_failure_amended.2 hourlyRoute (by decide)).1⟩

/-- C2 counterexample: with the observation-stations request answering
non-success, fetch_weather raises the gateway error, but the metadata
fetched by the earlier steps has already been assigned to the object
(meta was None before the fetch and is set afterwards) — refuting the
claim that no mutation of partially-built state is observable. -/
theorem C2_counterexample :
    errPart (fetch_weather id (failNet stationsRoute) (initTest (some "F")))
      = some (.exc "weather api fetch error")
    ∧ (initTest (some "F")).meta = Option.none
    ∧ (metaOf (fetch_weather id (failNet stationsRoute)
        (initTest (some "F")))).isSome = true :=
  ⟨rfl, rfl, rfl⟩

/-- C2 amended: when the station-lookup call returns a non-success
status, fetch_weather fails with the generic gateway exception and no
current-conditions snapshot is constructed (current and station remain
None), but the mutations of partially-built state made by the earlier
steps are observable on the object afterward: meta and forecast are
already assigned. -/
theorem C2_station_failure_amended :
    errPart (fetch_weather id (failNet stationsRoute) (initTest (some "F")))
      = some (.exc "weather api fetch error")
    ∧ curOf (fetch_weather id (failNet stationsRoute) (initTest (some "F")))
      = Option.none
    ∧ stationOf (fetch_weather id (failNet stationsRoute) (initTest (some "F")))
      = Option.none
    ∧ (metaOf (fetch_weather id (failNet stationsRoute)
        (initTest (some "F")))).isSome = true
    ∧ (forecastOf (fetch_weather id (failNet stationsRoute)
        (initTest (some "F")))).isSome = true :=
  ⟨rfl, rfl, rfl, rfl, rfl⟩

/-- C4 counterexample: a non-null measured field whose stripped unit
code "bogus" is not in the registry does not leave the fetch completing
with the field marked: the whole fetch fails with KeyError("bogus") and
no current snapshot is produced. -/
theorem C4_counterexample :
    unitLookup "bogus" = Option.none
    ∧ errPart (fetch_weather id mockNetBadUnit (initTest (some "F")))
      = some (.keyError "bogus")
    ∧ curOf (fetch_weather id mockNetBadUnit (initTest (some "F")))
      = Option.none :=
  ⟨rfl, rfl, rfl⟩

/-- C4 amended: a non-null measured value whose stripped unit code is
not in the registry makes the conversion raise KeyError on that code,
and the error is fatal for the whole fetch, not only for the field: at
the mocked chain carrying one such field the entire fetch fails with
that KeyError and no snapshot is produced. -/
theorem C4_unknown_unit_amended :
    (∀ (units : UnitSystem) (v : JVal) (val : ℚ) (code : String),
       v.item "value" = .ok (.num val) →
       v.item "unitCode" = .ok (.str code) →
       unitLookup (dropPre "unit:" code) = Option.none →
       jto_units units v = .error (.keyError (dropPre "unit:" code)))
    ∧ errPart (fetch_weather id mockNetBadUnit (initTest (some "F")))
      = some (.keyError "bogus") := by
  constructor
  · intro units v val code hv hc hl
    unfold jto_units
    rw [hv, hc]
    simp only [JVal.asStr]
    rw [hl]
  · exact rfl

/-- Witness for C4's amended theorem at a concrete field. -/
theorem C4_unknown_unit_witness :
    jto_units .US (.obj [("value", .num 1), ("unitCode", .str "unit:bogus")])
      = .error (.keyError "bogus") :=
  C4_unknown_unit_amended.1 .US
    (.obj [("value", .num 1), ("unitCode", .str "unit:bogus")]) 1 "unit:bogus"
    rfl rfl rfl

/-! ## Helper lemmas about _serialize (for C10) -/

/-- Unfolding _serialize over a cons cell. -/
theorem serialize_cons (k1 : String) (v1 : PVal) (tl : List (String × PVal)) :
    _serialize ((k1, v1) :: tl) =
      if k1 = "elevation" ∨ k1 = "cloud_layers" ∨ v1.isNone = true then
        _serialize tl
      else (k1, serializeVal v1) :: _serialize tl := by
  unfold _serialize
  simp only [List.filterMap_cons]
  split_ifs with hc
  · rfl
  · rfl

/-- Unfolding lookupKey over a cons cell. -/
theorem lookupKey_cons (k1 : String) (v1 : PVal) (tl : List (String × PVal))
    (k : String) :
    lookupKey ((k1, v1) :: tl) k =
      if k1 = k then some v1 else lookupKey tl k := by
  unfold lookupKey
  by_cases h : k1 = k
  · rw [List.find?_cons_of_pos _ (by simpa using h), if_pos h]
    rfl
  · rw [List.find?_cons_of_neg _ (by simpa using h), if_neg h]

/-- Every key surviving _serialize was a key of the input. -/
theorem serialize_keys_sub {data : List (String × PVal)} {kv : String × PVal}
    (h : kv ∈ _serialize data) : kv.1 ∈ data.map Prod.fst := by
  unfold _serialize at h
  rw [List.mem_filterMap] at h
  obtain ⟨a, ha, hfa⟩ := h
  by_cases hc : a.1 = "elevation" ∨ a.1 = "cloud_layers" ∨ a.2.isNone = true
  · rw [if_pos hc] at hfa
    exact Option.noConfusion hfa
  · rw [if_neg hc] at hfa
    injection hfa with h2
    subst h2
    exact List.mem_map.mpr ⟨a, ha, rfl⟩

/-- A key absent from the input is absent from the serialized mapping. -/
theorem lookupKey_serialize_of_not_mem {data : List (String × PVal)}
    {k : String} (h : k ∉ data.map Prod.fst) :
    lookupKey (_serialize data) k = Option.none := by
  unfold lookupKey
  have hf : List.find? (fun kv => kv.1 = k) (_serialize data) = Option.none := by
    rw [List.find?_eq_none]
    intro x hx hpx
    have hxk : x.1 = k := by simpa using hpx
    exact h (hxk ▸ serialize_keys_sub hx)
  rw [hf]
  rfl

/-- The serialized value of a non-Quantity value is the value itself. -/
theorem serializeVal_of_not_quant {v : PVal} (h : v.isQuant = false) :
    serializeVal v = v := by
  cases v with
  | quant q => simp [PVal.isQuant] at h
  | str s => rfl
  | num q => rfl
  | raw j => rfl
  | list xs => rfl
  | dict fs => rfl

/-- Values in the serialized mapping are never None and never a
Quantity. -/
theorem serialize_vals {data : List (String × PVal)} {kv : String × PVal}
    (h : kv ∈ _serialize data) :
    kv.2.isNone = false ∧ kv.2.isQuant = false := by
  unfold _serialize at h
  rw [List.mem_filterMap] at h
  obtain ⟨a, ha, hfa⟩ := h
  by_cases hc : a.1 = "elevation" ∨ a.1 = "cloud_layers" ∨ a.2.isNone = true
  · rw [if_pos hc] at hfa
    exact Option.noConfusion hfa
  · rw [if_neg hc] at hfa
    injection hfa with h2
    subst h2
    push_neg at hc
    obtain ⟨-, -, hn⟩ := hc
    have hn' : a.2.isNone = false := by
      cases hx : a.2.isNone
      · rfl
      · exact absurd hx hn
    constructor
    · cases hv2 : a.2 <;> simp_all [serializeVal, PVal.isNone]
    · cases hv2 : a.2 <;> simp_all [serializeVal, PVal.isQuant]

/-- A present key not excluded, whose value is not None, survives
serialization with the transformed value. -/
theorem serialize_lookup_some (k : String) (hk1 : k ≠ "elevation")
    (hk2 : k ≠ "cloud_layers") :
    ∀ (data : List (String × PVal)), (data.map Prod.fst).Nodup →
    ∀ v : PVal, lookupKey data k = some v → v.isNone = false →
    lookupKey (_serialize data) k = some (serializeVal v) := by
  intro data
  induction data with
  | nil =>
    intro _ v hv _
    exact Option.noConfusion hv
  | cons a tl ih =>
    intro hnd v hv hn
    obtain ⟨k1, v1⟩ := a
    rw [List.map_cons, List.nodup_cons] at hnd
    obtain ⟨hmem, hndtl⟩ := hnd
    rw [lookupKey_cons] at hv
    rw [serialize_cons]
    by_cases hEq : k1 = k
    · rw [if_pos hEq] at hv
      injection hv with hv
      subst hv
      subst hEq
      rw [if_neg (by simp [hk1, hk2, hn])]
      rw [lookupKey_cons, if_pos rfl]
    · rw [if_neg hEq] at hv
      by_cases hc : k1 = "elevation" ∨ k1 = "cloud_layers" ∨ v1.isNone = true
      · rw [if_pos hc]
        exact ih hndtl v hv hn
      · rw [if_neg hc, lookupKey_cons, if_neg hEq]
        exact ih hndtl v hv hn

/-- A present key whose value is None is absent from the serialized
mapping. -/
theorem serialize_lookup_none (k : String) :
    ∀ (data : List (String × PVal)), (data.map Prod.fst).Nodup →
    ∀ v : PVal, lookupKey data k = some v → v.isNone = true →
    lookupKey (_serialize data) k = Option.none := by
  intro data
  induction data with
  | nil =>
    intro _ v hv _
    exact Option.noConfusion hv
  | cons a tl ih =>
    intro hnd v hv hn
    obtain ⟨k1, v1⟩ := a
    rw [List.map_cons, List.nodup_cons] at hnd
    obtain ⟨hmem, hndtl⟩ := hnd
    rw [lookupKey_cons] at hv
    rw [serialize_cons]
    by_cases hEq : k1 = k
    · rw [if_pos hEq] at hv
      injection hv with hv
      subst hv
      subst hEq
      rw [if_pos (Or.inr (Or.inr hn))]
      exact lookupKey_serialize_of_not_mem hmem
    · rw [if_neg hEq] at hv
      by_cases hc : k1 = "elevation" ∨ k1 = "cloud_layers" ∨ v1.isNone = true
      · rw [if_pos hc]
        exact ih hndtl v hv hn
      · rw [if_neg hc, lookupKey_cons, if_neg hEq]
        exact ih hndtl v hv hn

/-- The excluded keys are always absent from the serialized mapping. -/
theorem serialize_lookup_excluded (data : List (String × PVal)) (k : String)
    (hk : k = "elevation" ∨ k = "cloud_layers") :
    lookupKey (_serialize data) k = Option.none := by
  unfold lookupKey
  have hf : List.find? (fun kv => kv.1 = k) (_serialize data) = Option.none := by
    rw [List.find?_eq_none]
    intro x hx hpx
    have hxk : x.1 = k := by simpa using hpx
    unfold _serialize at hx
    rw [List.mem_filterMap] at hx
    obtain ⟨a, ha, hfa⟩ := hx
    by_cases hc : a.1 = "elevation" ∨ a.1 = "cloud_layers" ∨ a.2.isNone = true
    · rw [if_pos hc] at hfa
      exact Option.noConfusion hfa
    · rw [if_neg hc] at hfa
      injection hfa with h2
      have ha1 : a.1 = x.1 := by rw [h2.symm]
      apply hc
      rcases hk with hk | hk
      · exact Or.inl (ha1.trans (hxk.trans hk))
      · exact Or.inr (Or.inl (ha1.trans (hxk.trans hk)))
  rw [hf]
  rfl

/-- Peeling one bind of a successful Except computation. -/
theorem except_bind_ok {α β γ : Type} {x : Except γ α} {f : α → Except γ β}
    {b : β} (h : x >>= f = .ok b) : ∃ a, x = .ok a ∧ f a = .ok b := by
  cases x with
  | ok a => exact ⟨a, rfl, h⟩
  | error e => exact Except.noConfusion h

/-- C10: the serialized current-conditions mapping (attached under the
"data" key of the processed observation, the mapping weather_app's entry
point merges into its result) omits the keys "elevation" and
"cloud_layers" and every field whose value is the None marker, replaces
every converted pint Quantity by its bare magnitude, and copies all
remaining fields through unchanged; and every successful
_process_current result exposes under "data" exactly the serialization
of the rest of the processed observation. -/
theorem C10_serialized_current (data : List (String × PVal))
    (hnd : (data.map Prod.fst).Nodup) :
    lookupKey (_serialize data) "elevation" = Option.none
    ∧ lookupKey (_serialize data) "cloud_layers" = Option.none
    ∧ (∀ kv, kv ∈ _serialize data → kv.2.isNone = false ∧ kv.2.isQuant = false)
    ∧ (∀ k q, k ≠ "elevation" → k ≠ "cloud_layers" →
        lookupKey data k = some (PVal.quant q) →
        lookupKey (_serialize data) k = some (PVal.num q.magnitude))
    ∧ (∀ k v, lookupKey data k = some v → v.isNone = true →
        lookupKey (_serialize data) k = Option.none)
    ∧ (∀ k v, k ≠ "elevation" → k ≠ "cloud_layers" →
        lookupKey data k = some v → v.isNone = false → v.isQuant = false →
        lookupKey (_serialize data) k = some v)
    ∧ (∀ (units : UnitSystem) (localize : String → String) (d : JVal)
         (obs : List (String × PVal)),
        _process_current units localize d = .ok obs →
        ∃ pre, obs = assocSet pre "data" (PVal.dict (_serialize pre))) := by
  refine ⟨?_, ?_, ?_, ?_, ?_, ?_, ?_⟩
  · exact serialize_lookup_excluded data "elevation" (Or.inl rfl)
  · exact serialize_lookup_excluded data "cloud_layers" (Or.inr rfl)
  · intro kv hkv
    exact serialize_vals hkv
  · intro k q hk1 hk2 hv
    have h := serialize_lookup_some k hk1 hk2 data hnd (PVal.quant q) hv rfl
    simpa [serializeVal] using h
  · intro k v hv hn
    exact serialize_lookup_none k data hnd v hv hn
  · intro k v hk1 hk2 hv hn hq
    have h := serialize_lookup_some k hk1 hk2 data hnd v hv hn
    rwa [serializeVal_of_not_quant hq] at h
  · intro units localize d obs h
    cases d with
    | obj fs =>
      unfold _process_current at h
      obtain ⟨conv, h1, h⟩ := except_bind_ok h
      obtain ⟨desc, h2, h⟩ := except_bind_ok h
      obtain ⟨ts, h3, h⟩ := except_bind_ok h
      obtain ⟨tsS, h4, h⟩ := except_bind_ok h
      obtain ⟨raw, h5, h⟩ := except_bind_ok h
      obtain ⟨clsJ, h6, h⟩ := except_bind_ok h
      cases clsJ with
      | arr cs =>
        obtain ⟨cls, h7, h⟩ := except_bind_ok h
        exact ⟨_, ((Except.ok.injEq _ _).mp h).symm⟩
      | null => exact Except.noConfusion h
      | bool b => exact Except.noConfusion h
      | num q => exact Except.noConfusion h
      | str s => exact Except.noConfusion h
      | obj fs2 => exact Except.noConfusion h
    | null => exact Except.noConfusion h
    | bool b => exact Except.noConfusion h
    | num q => exact Except.noConfusion h
    | str s => exact Except.noConfusion h
    | arr xs => exact Except.noConfusion h

/-- A concrete processed observation exercising every case of the
serialized mapping. -/
def c10data : List (String × PVal) :=
  [("temperature", .quant ⟨22 * 9 / 5 + 32, "degree_Fahrenheit"⟩),
   ("visibility", pyNone),
   ("elevation", .quant ⟨5, "km"⟩),
   ("desc", .str "Sunny"),
   ("cloud_layers", .list [])]

/-- Witness for C10 at the concrete observation c10data. -/
theorem C10_serialized_current_witness :
    lookupKey (_serialize c10data) "elevation" = Option.none
    ∧ lookupKey (_serialize c10data) "temperature"
      = some (.num (22 * 9 / 5 + 32))
    ∧ lookupKey (_serialize c10data) "visibility" = Option.none
    ∧ lookupKey (_serialize c10data) "desc" = some (.str "Sunny")
    ∧ lookupKey (_serialize c10data) "cloud_layers" = Option.none :=
  ⟨(C10_serialized_current c10data (by decide)).1,
   (C10_serialized_current c10data (by decide)).2.2.2.1 "temperature"
     ⟨22 * 9 / 5 + 32, "degree_Fahrenheit"⟩ (by decide) (by decide) rfl,
   (C10_serialized_current c10data (by decide)).2.2.2.2.1 "visibility"
     pyNone rfl rfl,
   (C10_serialized_current c10data (by decide)).2.2.2.2.2.1 "desc"
     (.str "Sunny") (by decide) (by decide) rfl rfl rfl,
   (C10_serialized_current c10data (by decide)).2.1⟩

end Weather
